import Mathlib

/-!
Verification of the expense categorization and validation core
(`src/core/categorizer.py`, `src/integrations/data_validator.py`,
`src/models/receipt.py`) against its natural-language specification.

Python floats are modelled as rationals, Python `None` as `Option`,
exceptions as `Except`, and the mutable `ValidationResult` object as
explicit state passing.
-/

namespace SRP

/-! ### String helpers (Python string semantics, ASCII scope) -/

/-- Python `str.lower` (ASCII). -/
def pyLower (s : String) : String := String.mk (s.toList.map Char.toLower)

/-- Python `str.strip()` on a character list. -/
def trimChars (l : List Char) : List Char :=
  ((l.dropWhile Char.isWhitespace).reverse.dropWhile Char.isWhitespace).reverse

/-- Python `str.strip()`. -/
def pyStrip (s : String) : String := String.mk (trimChars s.toList)

/-- Python `len(s)` (code points). -/
def pyLen (s : String) : Nat := s.toList.length

/-- Splits a character list at every character satisfying `p`,
dropping the separators and keeping empty pieces. -/
def splitChars (p : Char → Bool) : List Char → List (List Char)
  | [] => [[]]
  | c :: rest =>
    let r := splitChars p rest
    if p c then [] :: r
    else match r with
      | [] => [[c]]
      | h :: t => (c :: h) :: t

/-- Word tokens of a string: maximal runs of word characters
(alphanumeric or underscore), as used by the `\b`-delimited keyword
regexes in the categorizer. -/
def wordTokens (s : String) : List String :=
  ((splitChars (fun c => !(c.isAlphanum || c == '_')) s.toList).filter
    (fun l => l ≠ [])).map String.mk

/-- Whitespace tokens of a string: Python `str.split()` without
arguments (runs of whitespace separate, empties dropped). -/
def wsTokens (s : String) : List String :=
  ((splitChars Char.isWhitespace s.toList).filter (fun l => l ≠ [])).map String.mk

/-- Number of matches of the compiled pattern `\b<kw>\b` (IGNORECASE)
in `text`: occurrences of the keyword as a whole word.  All keywords
in the category store are single lower-case alphanumeric words. -/
def countKeyword (kw : String) (text : String) : Nat :=
  ((wordTokens (pyLower text)).filter (fun t => t = pyLower kw)).length

/-- Character-list prefix test. -/
def isPrefixCh : List Char → List Char → Bool
  | [], _ => true
  | _ :: _, [] => false
  | a :: as, b :: bs => a == b && isPrefixCh as bs

/-- Character-list infix test. -/
def isInfixCh (needle : List Char) : List Char → Bool
  | [] => isPrefixCh needle []
  | c :: rest => isPrefixCh needle (c :: rest) || isInfixCh needle rest

/-- Python `needle in hay` for strings. -/
def pyContains (hay needle : String) : Bool :=
  isInfixCh needle.toList hay.toList

/-- Python truthiness of an optional string (`None` and `""` are falsy). -/
def strTruthy : Option String → Bool
  | none => false
  | some s => s ≠ ""

/-- Python truthiness of an optional number (`None` and `0` are falsy). -/
def numTruthy : Option ℚ → Bool
  | none => false
  | some a => a ≠ 0

/-! ### `models/receipt.py`: `Receipt` -/

/-- Raw receipt data (`Receipt` dataclass); `image_path`, `raw_data`
and `created_at` are irrelevant to the verified logic and omitted. -/
structure Receipt where
  id : String
  vendor : Option String
  amount : Option ℚ
  date : Option String
  items : List String
  ocr_text : String
deriving Repr, DecidableEq

/-- `Receipt.__post_init__`: strips a truthy vendor, replaces a negative
amount by its absolute value, strips items and drops blank ones. -/
def mkReceipt (id : String) (vendor : Option String) (amount : Option ℚ)
    (date : Option String) (items : List String) (ocr_text : String) : Receipt :=
  { id := id
    vendor := match vendor with
      | none => none
      | some v => if v ≠ "" then some (pyStrip v) else some v
    amount := match amount with
      | none => none
      | some a => if a < 0 then some |a| else some a
    date := date
    items := if items ≠ [] then (items.map pyStrip).filter (fun i => i ≠ "") else items
    ocr_text := ocr_text }

/-! ### `core/categorizer.py`: category store -/

/-- One entry of the category store (`_get_default_categories`). -/
structure CategoryDef where
  name : String
  keywords : List String
  vendors : List String
deriving Repr, DecidableEq

/-- The default category store, in dict insertion order.  The repository
ships no `config/expense_categories.json`, so `_load_expense_categories`
always falls back to this built-in set. -/
def default_categories : List CategoryDef :=
  [ { name := "Office Supplies"
      keywords := ["paper", "pen", "pencil", "stapler", "folder", "binder", "supplies"]
      vendors := ["staples", "office depot", "best buy"] },
    { name := "Meals & Entertainment"
      keywords := ["restaurant", "food", "lunch", "dinner", "coffee", "catering"]
      vendors := ["mcdonalds", "starbucks", "subway", "dominos"] },
    { name := "Travel"
      keywords := ["hotel", "flight", "airline", "uber", "taxi", "gas", "parking"]
      vendors := ["hilton", "marriott", "delta", "united", "shell", "exxon"] },
    { name := "Technology"
      keywords := ["computer", "software", "laptop", "phone", "tablet", "tech"]
      vendors := ["apple", "microsoft", "amazon", "best buy"] },
    { name := "Marketing"
      keywords := ["advertising", "marketing", "promotion", "print", "design"]
      vendors := ["facebook", "google", "adobe"] },
    { name := "Utilities"
      keywords := ["electric", "water", "gas", "internet", "phone", "utility"]
      vendors := ["verizon", "att", "comcast"] },
    { name := "Professional Services"
      keywords := ["consultant", "legal", "accounting", "professional", "service"]
      vendors := ["law", "cpa", "consulting"] },
    { name := "Miscellaneous"
      keywords := ["misc", "other", "various"]
      vendors := [] } ]

/-- `categories.get(name, {})`. -/
def findCategory (name : String) : Option CategoryDef :=
  default_categories.find? (fun c => c.name = name)

/-- `self.categories.get(category, {}).get("keywords", [])` /
`self.keyword_patterns.get(category, [])`. -/
def categoryKeywords (name : String) : List String :=
  match findCategory name with
  | some c => c.keywords
  | none => []

/-- `self.categories.get(category, {}).get("vendors", [])`. -/
def categoryVendors (name : String) : List String :=
  match findCategory name with
  | some c => c.vendors
  | none => []

/-- Python dict assignment `d[k] = v`: replaces the value of an existing
key in place, otherwise appends the new key at the end. -/
def dictInsert (k : String) (v : String) : List (String × String) → List (String × String)
  | [] => [(k, v)]
  | (k', v') :: rest => if k' = k then (k, v) :: rest else (k', v') :: dictInsert k v rest

/-- Lookup in a dict modelled as an association list with unique keys. -/
def dictLookup (k : String) : List (String × String) → Option String
  | [] => none
  | (k', v) :: rest => if k' = k then some v else dictLookup k rest

/-- `_load_vendor_mappings`: vendor (lower-cased) → category, later
categories overwriting earlier ones for shared vendors. -/
def vendor_mappings : List (String × String) :=
  default_categories.foldl
    (fun m c => c.vendors.foldl (fun m v => dictInsert (pyLower v) c.name m) m) []

/-! ### `core/categorizer.py`: categorization -/

/-- `_categorize_by_vendor`: direct mapping first, then substring
matching in either direction in dict iteration order. -/
def categorize_by_vendor (vendor : String) : Option String :=
  let vendor_lower := pyLower vendor
  match dictLookup vendor_lower vendor_mappings with
  | some category => some category
  | none =>
    (vendor_mappings.find? (fun p =>
      pyContains vendor_lower p.1 || pyContains p.1 vendor_lower)).map (fun p => p.2)

/-- Python `max(dict, key=dict.get)` over scores listed in insertion
order: the first entry with the (strictly) greatest score. -/
def firstArgmax : List (String × ℚ) → Option (String × ℚ)
  | [] => none
  | p :: rest =>
    match firstArgmax rest with
    | none => some p
    | some q => if q.2 > p.2 then some q else some p

/-- `_categorize_by_items`: whole-word keyword counts over the joined,
lower-cased item text; only categories with a positive score compete. -/
def categorize_by_items (items : List String) : Option String :=
  let item_text := pyLower (String.intercalate " " items)
  let category_scores := default_categories.filterMap (fun c =>
    let score := (c.keywords.map (fun kw => countKeyword kw item_text)).sum
    if score > 0 then some (c.name, (score : ℚ)) else none)
  (firstArgmax category_scores).map (fun p => p.1)

/-- The `combined_text` of `_categorize_by_text_analysis`: lower-cased
join of vendor (when truthy), items (when nonempty) and OCR text (when
nonempty). -/
def text_combined (r : Receipt) : String :=
  pyLower (String.intercalate " "
    ((if strTruthy r.vendor then [r.vendor.getD ""] else []) ++
     (if r.items ≠ [] then r.items else []) ++
     (if r.ocr_text ≠ "" then [r.ocr_text] else [])))

/-- The `category_scores` of `_categorize_by_text_analysis`: keyword
counts normalized by word count × 100. -/
def text_scores (r : Receipt) : List (String × ℚ) :=
  default_categories.map (fun c =>
    let score := ((c.keywords.map (fun kw => countKeyword kw (text_combined r))).sum : ℚ)
    let score := if pyLen (text_combined r) > 0
      then score / ((wsTokens (text_combined r)).length : ℚ) * 100
      else score
    (c.name, score))

/-- `_categorize_by_text_analysis`: the winner must beat 0.1. -/
def categorize_by_text_analysis (r : Receipt) : Option String :=
  if pyStrip (text_combined r) = "" then none
  else
    match firstArgmax (text_scores r) with
    | some best => if best.2 > 1/10 then some best.1 else none
    | none => none

/-- `_categorize_by_amount`: `if not amount` guards both `None` and `0`. -/
def categorize_by_amount (amount : Option ℚ) : Option String :=
  if !numTruthy amount then none
  else
    let a := amount.getD 0
    if a < 10 then some "Office Supplies"
    else if a > 500 then some "Technology"
    else none

/-- Body of the `try` block of `categorize_expense`: the four ordered
signals followed by the default.  Total, hence never `.error`. -/
def categorize_expense_body (r : Receipt) : Except String String :=
  match (if strTruthy r.vendor then categorize_by_vendor (r.vendor.getD "") else none) with
  | some c => Except.ok c
  | none =>
    match (if r.items ≠ [] then categorize_by_items r.items else none) with
    | some c => Except.ok c
    | none =>
      match categorize_by_text_analysis r with
      | some c => Except.ok c
      | none =>
        match categorize_by_amount r.amount with
        | some c => Except.ok c
        | none => Except.ok "Miscellaneous"

/-- `categorize_expense`: the `except` clause degrades any internal
failure to "Uncategorized". -/
def categorize_expense (r : Receipt) : String :=
  match categorize_expense_body r with
  | Except.ok c => c
  | Except.error _ => "Uncategorized"

/-! ### `core/categorizer.py`: confidence scoring -/

/-- `_get_vendor_confidence`. -/
def get_vendor_confidence (vendor : String) (category : String) : ℚ :=
  if vendor = "" then 0
  else
    let vendor_lower := pyLower vendor
    let category_vendors := (categoryVendors category).map pyLower
    if vendor_lower ∈ category_vendors then 9/10
    else if category_vendors.any (fun cv =>
      pyContains vendor_lower cv || pyContains cv vendor_lower) then 7/10
    else 1/10

/-- `_get_items_confidence`: keyword matches normalized by item count,
capped at 1. -/
def get_items_confidence (items : List String) (category : String) : ℚ :=
  if items = [] then 0
  else
    let item_text := pyLower (String.intercalate " " items)
    let total_matches := ((categoryKeywords category).map
      (fun kw => countKeyword kw item_text)).sum
    if items.length > 0 then min ((total_matches : ℚ) / (items.length : ℚ)) 1
    else 0

/-- `_get_text_confidence`: keyword hits in vendor and OCR text,
scaled by 0.2 and capped at 1. -/
def get_text_confidence (r : Receipt) (category : String) : ℚ :=
  let patterns := categoryKeywords category
  if patterns = [] then 0
  else
    let vendor_matches := if strTruthy r.vendor
      then (patterns.map (fun kw => countKeyword kw (pyLower (r.vendor.getD "")))).sum
      else 0
    let ocr_matches := if r.ocr_text ≠ ""
      then (patterns.map (fun kw => countKeyword kw (pyLower r.ocr_text))).sum
      else 0
    let total_matches := vendor_matches + ocr_matches
    if total_matches > 0 then min ((total_matches : ℚ) * (1/5)) 1
    else 0

/-- The list of applicable confidence factors of
`get_category_confidence`; the text factor is appended unconditionally. -/
def confidence_factors (r : Receipt) (category : String) : List ℚ :=
  (if strTruthy r.vendor then [get_vendor_confidence (r.vendor.getD "") category] else []) ++
  (if r.items ≠ [] then [get_items_confidence r.items category] else []) ++
  [get_text_confidence r category]

/-- `get_category_confidence`: mean of the collected factors, 0.5 when
the list is empty. -/
def get_category_confidence (r : Receipt) (category : String) : ℚ :=
  let factors := confidence_factors r category
  if factors ≠ [] then factors.sum / (factors.length : ℚ) else 1/2

/-! ### `models/receipt.py`: `ProcessedReceipt` -/

/-- Processed receipt (`ProcessedReceipt` dataclass); the account /
department / project codes and timestamps play no role in the verified
logic and are omitted. -/
structure ProcessedReceipt where
  receipt : Receipt
  category : String
  confidence_score : ℚ
  description : String
  status : String
  requires_review : Bool
  notes : String
deriving Repr, DecidableEq

/-- `ProcessedReceipt.__post_init__`: derives the description from a
truthy vendor, forces review below confidence 0.7, and forces review
plus a note for a truthy amount above 1000. -/
def mkProcessedReceipt (receipt : Receipt) (category : String)
    (confidence_score : ℚ) (description : String) (status : String)
    (requires_review : Bool) (notes : String) : ProcessedReceipt :=
  let description :=
    if description = "" ∧ strTruthy receipt.vendor
    then (receipt.vendor.getD "") ++ " - " ++ category
    else description
  let requires_review := if confidence_score < 7/10 then true else requires_review
  let high := numTruthy receipt.amount ∧ receipt.amount.getD 0 > 1000
  let requires_review := if high then true else requires_review
  let notes := if high then notes ++ "High amount expense - requires approval. " else notes
  { receipt := receipt
    category := category
    confidence_score := confidence_score
    description := description
    status := status
    requires_review := requires_review
    notes := notes }

/-- `ProcessedReceipt(receipt=…, category=…, confidence_score=…)` with
the dataclass defaults for the remaining fields. -/
def mkProcessedReceiptD (receipt : Receipt) (category : String)
    (confidence_score : ℚ) : ProcessedReceipt :=
  mkProcessedReceipt receipt category confidence_score "" "processed" false ""

/-! ### `integrations/data_validator.py`: `ValidationResult` -/

/-- Mutable validation verdict, modelled as explicit state. -/
structure ValidationResult where
  is_valid : Bool
  errors : List String
  warnings : List String
  confidence_score : ℚ
deriving Repr, DecidableEq

/-- `ValidationResult.__init__`. -/
def ValidationResult.init : ValidationResult :=
  { is_valid := true, errors := [], warnings := [], confidence_score := 1 }

/-- `ValidationResult.add_error`. -/
def ValidationResult.add_error (r : ValidationResult) (message : String) : ValidationResult :=
  { r with errors := r.errors ++ [message], is_valid := false }

/-- `ValidationResult.add_warning`. -/
def ValidationResult.add_warning (r : ValidationResult) (message : String) : ValidationResult :=
  { r with warnings := r.warnings ++ [message] }

/-- `ValidationResult.reduce_confidence`. -/
def ValidationResult.reduce_confidence (r : ValidationResult) (amount : ℚ) : ValidationResult :=
  { r with confidence_score := max 0 (r.confidence_score - amount) }

/-! ### Date parsing (`datetime.strptime` over the six accepted formats) -/

/-- Numeric value of a digit string. -/
def digitsToNat (l : List Char) : Nat :=
  l.foldl (fun n c => n * 10 + (c.toNat - '0'.toNat)) 0

/-- Gregorian leap year. -/
def isLeap (y : Nat) : Bool := (y % 4 = 0 ∧ y % 100 ≠ 0) ∨ y % 400 = 0

/-- Days in a month of the proleptic Gregorian calendar. -/
def daysInMonth (y m : Nat) : Nat :=
  if m = 2 then (if isLeap y then 29 else 28)
  else if m ∈ [4, 6, 9, 11] then 30
  else 31

/-- Component order of a date format. -/
inductive DOrder | ymd | mdy | dmy
deriving Repr, DecidableEq

/-- One `strptime` attempt: the separator must split the string into
exactly three all-digit fields; `%Y` takes exactly four digits, `%m` and
`%d` at most two with their value ranges, and `datetime` then checks the
day against the month and requires year ≥ 1. -/
def parseDateFormat (sep : Char) (ord : DOrder) (s : String) : Option (Nat × Nat × Nat) :=
  match splitChars (fun c => c == sep) s.toList with
  | [p1, p2, p3] =>
    let (py, pm, pd) := match ord with
      | DOrder.ymd => (p1, p2, p3)
      | DOrder.mdy => (p3, p1, p2)
      | DOrder.dmy => (p3, p2, p1)
    if py.all Char.isDigit ∧ pm.all Char.isDigit ∧ pd.all Char.isDigit ∧
        py.length = 4 ∧ 0 < pm.length ∧ pm.length ≤ 2 ∧ 0 < pd.length ∧ pd.length ≤ 2
    then
      let y := digitsToNat py
      let m := digitsToNat pm
      let d := digitsToNat pd
      if 1 ≤ y ∧ 1 ≤ m ∧ m ≤ 12 ∧ 1 ≤ d ∧ d ≤ daysInMonth y m
      then some (y, m, d) else none
    else none
  | _ => none

/-- The format list of `_validate_date`, tried in order. -/
def parseDate (s : String) : Option (Nat × Nat × Nat) :=
  [(('-' : Char), DOrder.ymd), ('/', DOrder.mdy), ('/', DOrder.dmy), ('/', DOrder.ymd),
   ('-', DOrder.mdy), ('-', DOrder.dmy)].foldl
    (fun acc p => match acc with
      | some d => some d
      | none => parseDateFormat p.1 p.2 s) none

/-- Day number of a proleptic-Gregorian date (days since 0000-03-01),
used to compare parsed dates with "now"; chronological and faithful to
`datetime` ordering. -/
def dayNumber (ymd : Nat × Nat × Nat) : Int :=
  let y := if ymd.2.1 ≤ 2 then ymd.1 - 1 else ymd.1
  let m' := if ymd.2.1 > 2 then ymd.2.1 - 3 else ymd.2.1 + 9
  ((365 * y + y / 4 - y / 100 + y / 400 + (153 * m' + 2) / 5 + ymd.2.2 - 1 : Nat) : Int)

/-! ### `integrations/data_validator.py`: per-field checks.
Each check mutates the running verdict; the branch conditions depend
only on the receipt (and the clock / configuration), never on the
verdict.  `now` is the day number of `datetime.now()` (taken at
midnight), `min_conf` is `config.MIN_CONFIDENCE_SCORE` (default 0.8). -/

/-- Fixed-two-decimals rendering of a rational, standing in for Python's
`f"{x:.2f}"` in warning texts (rounds half away from zero instead of
half-even; no verified claim inspects these texts). -/
def pyFormat2 (q : ℚ) : String :=
  let sgn := if q < 0 then "-" else ""
  let c : Nat := (Int.floor (|q| * 100 + 1/2)).toNat
  sgn ++ toString (c / 100) ++ "." ++
    (if c % 100 < 10 then "0" else "") ++ toString (c % 100)

/-- Python `c.isalnum()`. -/
def pyIsAlnum (c : Char) : Bool := c.isAlphanum

/-- `_validate_vendor`. -/
def validate_vendor (p : ProcessedReceipt) (result : ValidationResult) : ValidationResult :=
  if ¬ strTruthy p.receipt.vendor then result.add_error "Vendor name is missing"
  else
    let vendor := p.receipt.vendor.getD ""
    let result := if (pyStrip vendor).length < 2
      then result.add_error "Vendor name too short" else result
    let result := if pyLen vendor > 100
      then result.add_warning "Vendor name unusually long" else result
    let result := if pyLower vendor ∈ ["unknown", "n/a", "na", "none", "test"]
      then (result.add_warning "Vendor name appears to be placeholder").reduce_confidence (3/10)
      else result
    let special_char_count :=
      (vendor.toList.filter (fun c => ¬ pyIsAlnum c ∧ c ∉ [' ', '-', '&', '.'])).length
    if (special_char_count : ℚ) > (pyLen vendor : ℚ) * (1/5)
    then (result.add_warning "Vendor name contains many special characters").reduce_confidence (1/5)
    else result

/-- `_validate_amount`. -/
def validate_amount (p : ProcessedReceipt) (result : ValidationResult) : ValidationResult :=
  match p.receipt.amount with
  | none => result.add_error "Amount is missing"
  | some amount =>
    let result := if amount ≤ 0 then result.add_error "Amount must be positive" else result
    let result := if amount > 50000
      then (result.add_warning "Amount is unusually high").reduce_confidence (1/10)
      else result
    let result := if amount.den = 1 ∧ amount ≥ 100
      then (result.add_warning "Amount is a round number - verify accuracy").reduce_confidence (1/10)
      else result
    if (amount * 100).den ≠ 1
    then result.add_warning "Amount has more than 2 decimal places"
    else result

/-- `_validate_date`. -/
def validate_date (now : Int) (p : ProcessedReceipt) (result : ValidationResult) : ValidationResult :=
  if ¬ strTruthy p.receipt.date then result.add_warning "Date is missing"
  else
    let date_str := p.receipt.date.getD ""
    match parseDate date_str with
    | none => result.add_error ("Invalid date format: " ++ date_str)
    | some parsed =>
      let result := if dayNumber parsed < now - 365
        then result.add_warning "Date is more than one year old" else result
      if dayNumber parsed > now + 30
      then (result.add_warning "Date is in the future").reduce_confidence (1/5)
      else result

/-- `_get_valid_categories`. -/
def valid_categories : List String :=
  ["Office Supplies", "Meals & Entertainment", "Travel", "Technology",
   "Marketing", "Utilities", "Professional Services", "Insurance",
   "Maintenance & Repairs", "Miscellaneous"]

/-- The `category_ranges` table of `_validate_category_amount_consistency`. -/
def category_ranges : List (String × ℚ × ℚ) :=
  [("Office Supplies", 1, 500), ("Meals & Entertainment", 5, 200),
   ("Travel", 10, 2000), ("Technology", 25, 5000), ("Marketing", 50, 10000),
   ("Utilities", 25, 1000), ("Professional Services", 100, 50000),
   ("Insurance", 50, 5000), ("Maintenance & Repairs", 25, 2000),
   ("Miscellaneous", 1, 1000)]

/-- `_validate_category_amount_consistency`. -/
def validate_category_amount_consistency (p : ProcessedReceipt)
    (result : ValidationResult) : ValidationResult :=
  if ¬ numTruthy p.receipt.amount then result
  else
    let amount := p.receipt.amount.getD 0
    match category_ranges.find? (fun r => r.1 = p.category) with
    | none => result
    | some range =>
      if amount < range.2.1
      then result.add_warning
        ("Amount $" ++ pyFormat2 amount ++ " is low for category '" ++ p.category ++ "'")
      else if amount > range.2.2
      then result.add_warning
        ("Amount $" ++ pyFormat2 amount ++ " is high for category '" ++ p.category ++ "'")
      else result

/-- `_validate_category`. -/
def validate_category (p : ProcessedReceipt) (result : ValidationResult) : ValidationResult :=
  if p.category = "" then result.add_error "Category is missing"
  else
    let result := if p.category ∉ valid_categories
      then result.add_warning ("Unknown category: " ++ p.category) else result
    validate_category_amount_consistency p result

/-- `_load_validation_rules` returns the empty rule list. -/
def validation_rules : List Unit := []

/-- `_validate_business_rules`: iterates the (empty) rule list. -/
def validate_business_rules (_p : ProcessedReceipt) (result : ValidationResult) : ValidationResult :=
  validation_rules.foldl (fun res _rule => res) result

/-- Non-overlapping substring count, Python `str.count`. -/
def countSub (pat : List Char) : List Char → Nat
  | [] => 0
  | c :: rest =>
    if isPrefixCh pat (c :: rest) ∧ pat ≠ []
    then 1 + countSub pat (rest.drop (pat.length - 1))
    else countSub pat rest
termination_by l => l.length
decreasing_by
  · simp only [List.length_drop, List.length_cons]
    omega
  · simp only [List.length_cons]
    omega

/-- `_assess_ocr_quality`. -/
def assess_ocr_quality (ocr_text : String) : ℚ :=
  if ocr_text = "" then 0
  else
    let total_chars := pyLen ocr_text
    if total_chars = 0 then 0
    else
      let readable_chars :=
        (ocr_text.toList.filter (fun c => pyIsAlnum c ∨ c.isWhitespace)).length
      let readability_score := (readable_chars : ℚ) / (total_chars : ℚ)
      let artifact_count :=
        (["|||", "~~~", "###", "***"].map (fun a => countSub a.toList ocr_text.toList)).sum
      let artifact_penalty := min ((artifact_count : ℚ) * (1/10)) (1/2)
      max 0 (min 1 (readability_score - artifact_penalty))

/-- `_calculate_completeness`. -/
def calculate_completeness (p : ProcessedReceipt) : ℚ :=
  let complete_fields :=
    (if strTruthy p.receipt.vendor then 1 else 0) +
    (if numTruthy p.receipt.amount then 1 else 0) +
    (if strTruthy p.receipt.date then 1 else 0) +
    (if p.category ≠ "" then 1 else 0) +
    (if p.description ≠ "" then 1 else 0)
  (complete_fields : ℚ) / 5

/-- `_validate_data_quality`. -/
def validate_data_quality (p : ProcessedReceipt) (result : ValidationResult) : ValidationResult :=
  let result :=
    if p.receipt.ocr_text ≠ "" ∧ assess_ocr_quality p.receipt.ocr_text < 1/2
    then (result.add_warning "Poor OCR text quality detected").reduce_confidence (1/5)
    else result
  if calculate_completeness p < 7/10
  then (result.add_warning "Incomplete data - manual review recommended").reduce_confidence (3/10)
  else result

/-- `_validate_confidence`. -/
def validate_confidence (min_conf : ℚ) (p : ProcessedReceipt)
    (result : ValidationResult) : ValidationResult :=
  let result := if p.confidence_score < min_conf
    then (result.add_warning
      ("Low confidence score: " ++ pyFormat2 p.confidence_score)).reduce_confidence (1/5)
    else result
  if p.confidence_score < 1/2
  then result.add_error "Very low confidence - manual review required"
  else result

/-- The checks of `validate_processed_receipt`, in call order. -/
def validation_checks (min_conf : ℚ) (now : Int) (p : ProcessedReceipt) :
    List (ValidationResult → ValidationResult) :=
  [validate_vendor p, validate_amount p, validate_date now p, validate_category p,
   validate_business_rules p, validate_data_quality p, validate_confidence min_conf p]

/-- `validate_processed_receipt`: runs every check on a fresh verdict. -/
def validate_processed_receipt (min_conf : ℚ) (now : Int)
    (p : ProcessedReceipt) : ValidationResult :=
  (validation_checks min_conf now p).foldl (fun r c => c r) ValidationResult.init

/-! ### `integrations/data_validator.py`: batch consistency -/

/-- `ProcessedReceipt.vendor` convenience property. -/
def ProcessedReceipt.vendor (p : ProcessedReceipt) : Option String := p.receipt.vendor

/-- `ProcessedReceipt.amount` convenience property. -/
def ProcessedReceipt.amount (p : ProcessedReceipt) : Option ℚ := p.receipt.amount

/-- `ProcessedReceipt.date` convenience property. -/
def ProcessedReceipt.date (p : ProcessedReceipt) : Option String := p.receipt.date

/-- The per-record verdicts of a batch, keyed by receipt id. -/
abbrev BatchResults := List (String × ValidationResult)

/-- `if receipt_id in results: results[receipt_id].add_warning(message)`. -/
def addWarningTo (results : BatchResults) (id : String) (message : String) : BatchResults :=
  results.map (fun e => if e.1 = id then (e.1, e.2.add_warning message) else e)

/-- `_check_duplicates`: pairwise comparison of each receipt against the
already-seen ones; an exact (vendor, amount, date) match warns both
members, current receipt first. -/
def check_duplicates_loop (seen : List ProcessedReceipt) :
    List ProcessedReceipt → BatchResults → BatchResults
  | [], results => results
  | receipt :: rest, results =>
    let results := seen.foldl (fun res seen_receipt =>
      if receipt.vendor = seen_receipt.vendor ∧ receipt.amount = seen_receipt.amount ∧
          receipt.date = seen_receipt.date
      then addWarningTo (addWarningTo res receipt.receipt.id "Potential duplicate receipt detected")
        seen_receipt.receipt.id "Potential duplicate receipt detected"
      else res) results
    check_duplicates_loop (seen ++ [receipt]) rest results

/-- `_check_duplicates`. -/
def check_duplicates (receipts : List ProcessedReceipt) (results : BatchResults) : BatchResults :=
  check_duplicates_loop [] receipts results

/-- `[r.amount for r in receipts if r.amount]`: Python truthiness keeps
only present, nonzero amounts. -/
def truthyAmounts (receipts : List ProcessedReceipt) : List ℚ :=
  receipts.filterMap (fun r => match r.amount with
    | none => none
    | some a => if a = 0 then none else some a)

/-- The loop body of `_check_unusual_patterns`: a truthy amount above
five times the batch average warns that receipt's verdict. -/
def unusual_step (avg_amount : ℚ) (res : BatchResults) (receipt : ProcessedReceipt) :
    BatchResults :=
  if numTruthy receipt.amount ∧ receipt.amount.getD 0 > avg_amount * 5
  then addWarningTo res receipt.receipt.id "Amount significantly higher than batch average"
  else res

/-- `_check_unusual_patterns`: skipped for batches of fewer than five
records; flags truthy amounts above five times the mean of the truthy
amounts. -/
def check_unusual_patterns (receipts : List ProcessedReceipt)
    (results : BatchResults) : BatchResults :=
  if receipts.length < 5 then results
  else
    let amounts := truthyAmounts receipts
    if amounts = [] then results
    else
      let avg_amount := amounts.sum / (amounts.length : ℚ)
      receipts.foldl (unusual_step avg_amount) results

/-- `_validate_batch_consistency`. -/
def validate_batch_consistency (receipts : List ProcessedReceipt)
    (results : BatchResults) : BatchResults :=
  check_unusual_patterns receipts (check_duplicates receipts results)

/-- `validate_batch`. -/
def validate_batch (min_conf : ℚ) (now : Int)
    (receipts : List ProcessedReceipt) : BatchResults :=
  let results := receipts.map (fun r =>
    (r.receipt.id, validate_processed_receipt min_conf now r))
  validate_batch_consistency receipts results

/-! ### Record-to-verdict pipeline -/

/-- Modelled from the spec: the orchestration module
(`core/receipt_processor.py`, imported by `main.py` and `src/__init__.py`)
is absent from the sources; only the mismatched `receipt_processor_fixed.py`
remains.  Per the spec's control flow "Record → Categorizer →
(category, confidence) → Validator", the processed record carries the
categorizer's chosen category and its `score` for that category. -/
def process_record (min_conf : ℚ) (now : Int) (r : Receipt) :
    String × ℚ × ValidationResult :=
  let category := categorize_expense r
  let confidence := get_category_confidence r category
  let p := mkProcessedReceiptD r category confidence
  (category, confidence, validate_processed_receipt min_conf now p)

/-! ### Derived definitions used by the statements and proofs -/

/-- Every value `categorize_expense` can return: the category names of
the store, the default "Miscellaneous", and the exception fallback
"Uncategorized". -/
def possible_categories : List String :=
  "Uncategorized" :: "Miscellaneous" :: default_categories.map (fun c => c.name)

/-- The sample record of the spec's test scenario (and of
`tests/conftest.py`): vendor "Staples", amount 45.99, date 2024-01-15. -/
def staples_receipt : Receipt :=
  mkReceipt "r1" (some "Staples") (some (4599/100)) (some "2024-01-15") [] ""

/-- The record of the negative-amount scenario: vendor "Acme",
amount -5.00, date 2024-01-15. -/
def acme_receipt : Receipt :=
  mkReceipt "r2" (some "Acme") (some (-5)) (some "2024-01-15") [] ""

/-- A record with no vendor, no amount, no date, no items and empty
recognized text. -/
def empty_receipt : Receipt :=
  mkReceipt "r3" none none none [] ""

/-- A fixed reference day for `datetime.now()` (2026-10-12). -/
def sample_now : Int := dayNumber (2026, 10, 12)

/-- One batch member for the outlier scenarios. -/
def outlier_receipt (id : String) (amount : Option ℚ) : ProcessedReceipt :=
  mkProcessedReceiptD (mkReceipt id (some ("Vendor " ++ id)) amount (some "2024-01-15") [] "")
    "Office Supplies" 1

/-- A batch of six records with known amounts 0, 100, 1, 1, 1, 1: six
records have a known amount, and 100 exceeds five times their mean
(5 × 104/6 ≈ 86.7), yet the code's outlier pass flags nothing because
the truthiness filter drops the 0 amount from the mean (5 × 104/5 = 104). -/
def c9_batch : List ProcessedReceipt :=
  [outlier_receipt "a" (some 0), outlier_receipt "b" (some 100),
   outlier_receipt "c" (some 1), outlier_receipt "d" (some 1),
   outlier_receipt "e" (some 1), outlier_receipt "f" (some 1)]

/-- Fresh verdicts for `c9_batch`. -/
def c9_results : BatchResults := c9_batch.map (fun r => (r.receipt.id, ValidationResult.init))

/-- A batch of six records with amounts 100, 1, 1, 1, 1, 1, whose first
record exceeds five times the batch mean (5 × 105/6 = 87.5). -/
def c9_witness_batch : List ProcessedReceipt :=
  [outlier_receipt "a" (some 100), outlier_receipt "b" (some 1),
   outlier_receipt "c" (some 1), outlier_receipt "d" (some 1),
   outlier_receipt "e" (some 1), outlier_receipt "f" (some 1)]

/-- Fresh verdicts for `c9_witness_batch`. -/
def c9_witness_results : BatchResults :=
  c9_witness_batch.map (fun r => (r.receipt.id, ValidationResult.init))

/-! ### Proof machinery: how one validation step may change a verdict.
`StepOk r r'` says `r'` arises from `r` by appending errors and warnings
only, with the validity flag cleared exactly when an error was appended,
and with the confidence score not increased (and kept nonnegative). -/

def StepOk (r r' : ValidationResult) : Prop :=
  (∃ es, r'.errors = r.errors ++ es ∧ r'.is_valid = (r.is_valid && es.isEmpty)) ∧
  (∃ ws, r'.warnings = r.warnings ++ ws) ∧
  (0 ≤ r.confidence_score →
    r'.confidence_score ≤ r.confidence_score ∧ 0 ≤ r'.confidence_score)

/-! `WExt e e'` says the keyed verdict `e'` arises from `e` by appending
warnings only: same key, same errors, same validity, same confidence. -/

def WExt (e e' : String × ValidationResult) : Prop :=
  e'.1 = e.1 ∧ e'.2.errors = e.2.errors ∧ e'.2.is_valid = e.2.is_valid ∧
  e'.2.confidence_score = e.2.confidence_score ∧
  ∃ ws, e'.2.warnings = e.2.warnings ++ ws

/-- Pointwise lifting of `WExt` to whole batch-result maps. -/
def BExt (a b : BatchResults) : Prop := List.Forall₂ WExt a b

theorem StepOk_refl (r : ValidationResult) : StepOk r r :=
  ⟨⟨[], by simp⟩, ⟨[], by simp⟩, fun h => ⟨le_refl _, h⟩⟩

theorem StepOk_trans {r s t : ValidationResult} (h1 : StepOk r s) (h2 : StepOk s t) :
    StepOk r t := by
  obtain ⟨⟨es1, he1, hv1⟩, ⟨ws1, hw1⟩, hc1⟩ := h1
  obtain ⟨⟨es2, he2, hv2⟩, ⟨ws2, hw2⟩, hc2⟩ := h2
  refine ⟨⟨es1 ++ es2, ?_, ?_⟩, ⟨ws1 ++ ws2, ?_⟩, ?_⟩
  · simp [he2, he1]
  · have hemp : (es1 ++ es2).isEmpty = (es1.isEmpty && es2.isEmpty) := by
      cases es1 <;> simp [List.isEmpty]
    simp [hv2, hv1, hemp, Bool.and_assoc]
  · simp [hw2, hw1]
  · intro h
    obtain ⟨hle1, hnn1⟩ := hc1 h
    obtain ⟨hle2, hnn2⟩ := hc2 hnn1
    exact ⟨le_trans hle2 hle1, hnn2⟩

theorem StepOk_snoc_err {r s : ValidationResult} (m : String) (h : StepOk r s) :
    StepOk r (s.add_error m) := by
  refine StepOk_trans h ⟨⟨[m], by simp [ValidationResult.add_error]⟩,
    ⟨[], by simp [ValidationResult.add_error]⟩, fun hc => ⟨le_refl _, hc⟩⟩

theorem StepOk_snoc_warn {r s : ValidationResult} (m : String) (h : StepOk r s) :
    StepOk r (s.add_warning m) := by
  refine StepOk_trans h ⟨⟨[], by simp [ValidationResult.add_warning]⟩,
    ⟨[m], by simp [ValidationResult.add_warning]⟩, fun hc => ⟨le_refl _, hc⟩⟩

theorem StepOk_snoc_reduce {r s : ValidationResult} {a : ℚ} (ha : 0 ≤ a)
    (h : StepOk r s) : StepOk r (s.reduce_confidence a) := by
  refine StepOk_trans h ⟨⟨[], by simp [ValidationResult.reduce_confidence]⟩,
    ⟨[], by simp [ValidationResult.reduce_confidence]⟩, fun hc => ?_⟩
  constructor
  · simp only [ValidationResult.reduce_confidence]
    exact max_le hc (by linarith)
  · simp [ValidationResult.reduce_confidence]

theorem stepOk_validate_vendor (p : ProcessedReceipt) (r : ValidationResult) :
    StepOk r (validate_vendor p r) := by
  unfold validate_vendor
  by_cases h : ¬ strTruthy p.receipt.vendor
  · rw [if_pos h]
    exact StepOk_snoc_err _ (StepOk_refl _)
  · rw [if_neg h]
    dsimp only
    split_ifs <;>
      repeat' first
        | exact StepOk_refl _
        | refine StepOk_snoc_reduce (by norm_num) ?_
        | refine StepOk_snoc_warn _ ?_
        | refine StepOk_snoc_err _ ?_

theorem stepOk_validate_amount (p : ProcessedReceipt) (r : ValidationResult) :
    StepOk r (validate_amount p r) := by
  unfold validate_amount
  cases p.receipt.amount <;> dsimp only
  · exact StepOk_snoc_err _ (StepOk_refl _)
  · split_ifs <;>
      repeat' first
        | exact StepOk_refl _
        | refine StepOk_snoc_reduce (by norm_num) ?_
        | refine StepOk_snoc_warn _ ?_
        | refine StepOk_snoc_err _ ?_

theorem stepOk_validate_date (now : Int) (p : ProcessedReceipt) (r : ValidationResult) :
    StepOk r (validate_date now p r) := by
  unfold validate_date
  by_cases h : ¬ strTruthy p.receipt.date
  · rw [if_pos h]
    exact StepOk_snoc_warn _ (StepOk_refl _)
  · rw [if_neg h]
    dsimp only
    cases parseDate (p.receipt.date.getD "") <;> dsimp only
    · exact StepOk_snoc_err _ (StepOk_refl _)
    · split_ifs <;>
        repeat' first
          | exact StepOk_refl _
          | refine StepOk_snoc_reduce (by norm_num) ?_
          | refine StepOk_snoc_warn _ ?_

theorem stepOk_validate_category_amount (p : ProcessedReceipt) (r : ValidationResult) :
    StepOk r (validate_category_amount_consistency p r) := by
  unfold validate_category_amount_consistency
  by_cases h : ¬ numTruthy p.receipt.amount
  · rw [if_pos h]
    exact StepOk_refl _
  · rw [if_neg h]
    dsimp only
    cases category_ranges.find? (fun rng => rng.1 = p.category) <;> dsimp only
    · exact StepOk_refl _
    · split_ifs <;>
        repeat' first
          | exact StepOk_refl _
          | refine StepOk_snoc_warn _ ?_

theorem stepOk_validate_category (p : ProcessedReceipt) (r : ValidationResult) :
    StepOk r (validate_category p r) := by
  unfold validate_category
  by_cases h : p.category = ""
  · rw [if_pos h]
    exact StepOk_snoc_err _ (StepOk_refl _)
  · rw [if_neg h]
    dsimp only
    split_ifs <;> first
      | exact stepOk_validate_category_amount _ _
      | exact StepOk_trans (StepOk_snoc_warn _ (StepOk_refl _))
          (stepOk_validate_category_amount _ _)

theorem stepOk_validate_business_rules (p : ProcessedReceipt) (r : ValidationResult) :
    StepOk r (validate_business_rules p r) := StepOk_refl _

theorem stepOk_validate_data_quality (p : ProcessedReceipt) (r : ValidationResult) :
    StepOk r (validate_data_quality p r) := by
  unfold validate_data_quality
  dsimp only
  split_ifs <;>
    repeat' first
      | exact StepOk_refl _
      | refine StepOk_snoc_reduce (by norm_num) ?_
      | refine StepOk_snoc_warn _ ?_

theorem stepOk_validate_confidence (min_conf : ℚ) (p : ProcessedReceipt) (r : ValidationResult) :
    StepOk r (validate_confidence min_conf p r) := by
  unfold validate_confidence
  dsimp only
  split_ifs <;>
    repeat' first
      | exact StepOk_refl _
      | refine StepOk_snoc_reduce (by norm_num) ?_
      | refine StepOk_snoc_warn _ ?_
      | refine StepOk_snoc_err _ ?_

theorem stepOk_validation_checks (min_conf : ℚ) (now : Int) (p : ProcessedReceipt) :
    ∀ c ∈ validation_checks min_conf now p, ∀ r, StepOk r (c r) := by
  intro c hc r
  simp only [validation_checks, List.mem_cons, List.not_mem_nil, or_false] at hc
  rcases hc with h | h | h | h | h | h | h <;> subst h
  · exact stepOk_validate_vendor _ _
  · exact stepOk_validate_amount _ _
  · exact stepOk_validate_date _ _ _
  · exact stepOk_validate_category _ _
  · exact stepOk_validate_business_rules _ _
  · exact stepOk_validate_data_quality _ _
  · exact stepOk_validate_confidence _ _ _

theorem stepOk_foldl (l : List (ValidationResult → ValidationResult))
    (h : ∀ c ∈ l, ∀ r, StepOk r (c r)) :
    ∀ r, StepOk r (l.foldl (fun s c => c s) r) := by
  induction l with
  | nil => intro r; exact StepOk_refl _
  | cons c t ih =>
    intro r
    exact StepOk_trans (h c (by simp) r)
      (ih (fun c' hc' => h c' (by simp [hc'])) (c r))

theorem stepOk_validate_processed_receipt (min_conf : ℚ) (now : Int)
    (p : ProcessedReceipt) :
    StepOk ValidationResult.init (validate_processed_receipt min_conf now p) :=
  stepOk_foldl _ (stepOk_validation_checks min_conf now p) _

/-! ### Proof machinery: batch checking only extends warning lists. -/

theorem WExt_refl (e : String × ValidationResult) : WExt e e :=
  ⟨rfl, rfl, rfl, rfl, [], by simp⟩

theorem WExt_trans {e f g : String × ValidationResult} (h1 : WExt e f) (h2 : WExt f g) :
    WExt e g := by
  obtain ⟨hk1, he1, hv1, hc1, ws1, hw1⟩ := h1
  obtain ⟨hk2, he2, hv2, hc2, ws2, hw2⟩ := h2
  exact ⟨hk2.trans hk1, he2.trans he1, hv2.trans hv1, hc2.trans hc1,
    ws1 ++ ws2, by simp [hw2, hw1]⟩

theorem BExt_refl (a : BatchResults) : BExt a a := by
  induction a with
  | nil => exact List.Forall₂.nil
  | cons e t ih => exact List.Forall₂.cons (WExt_refl e) ih

theorem BExt_trans {a b c : BatchResults} (h1 : BExt a b) (h2 : BExt b c) : BExt a c := by
  induction h1 generalizing c with
  | nil => cases h2; exact List.Forall₂.nil
  | cons hw _ ih =>
    cases h2 with
    | cons hw2 ht2 => exact List.Forall₂.cons (WExt_trans hw hw2) (ih ht2)

theorem BExt_addWarningTo (res : BatchResults) (id message : String) :
    BExt res (addWarningTo res id message) := by
  induction res with
  | nil => exact List.Forall₂.nil
  | cons e t ih =>
    refine List.Forall₂.cons ?_ ih
    by_cases h : e.1 = id <;>
      simp [addWarningTo, h, WExt, ValidationResult.add_warning, WExt_refl]

theorem BExt_foldl {α : Type} (f : BatchResults → α → BatchResults)
    (hf : ∀ res x, BExt res (f res x)) (l : List α) :
    ∀ res, BExt res (l.foldl f res) := by
  induction l with
  | nil => intro res; exact BExt_refl _
  | cons x t ih => intro res; exact BExt_trans (hf res x) (ih (f res x))

theorem BExt_check_duplicates_loop (l : List ProcessedReceipt) :
    ∀ (seen : List ProcessedReceipt) (results : BatchResults),
      BExt results (check_duplicates_loop seen l results) := by
  induction l with
  | nil => intro seen results; exact BExt_refl _
  | cons receipt rest ih =>
    intro seen results
    refine BExt_trans (BExt_foldl _ ?_ seen results) (ih _ _)
    intro res s
    by_cases h : receipt.vendor = s.vendor ∧ receipt.amount = s.amount ∧
        receipt.date = s.date
    · rw [if_pos h]
      exact BExt_trans (BExt_addWarningTo _ _ _) (BExt_addWarningTo _ _ _)
    · rw [if_neg h]
      exact BExt_refl _

theorem BExt_check_duplicates (receipts : List ProcessedReceipt) (results : BatchResults) :
    BExt results (check_duplicates receipts results) :=
  BExt_check_duplicates_loop receipts [] results

theorem BExt_unusual_step (avg_amount : ℚ) (res : BatchResults) (receipt : ProcessedReceipt) :
    BExt res (unusual_step avg_amount res receipt) := by
  unfold unusual_step
  split_ifs
  · exact BExt_addWarningTo _ _ _
  · exact BExt_refl _

theorem BExt_check_unusual_patterns (receipts : List ProcessedReceipt)
    (results : BatchResults) : BExt results (check_unusual_patterns receipts results) := by
  unfold check_unusual_patterns
  split_ifs with h1
  · exact BExt_refl _
  dsimp only
  split_ifs with h2
  · exact BExt_refl _
  exact BExt_foldl _ (fun res receipt => BExt_unusual_step _ res receipt) receipts results

theorem BExt_validate_batch_consistency (receipts : List ProcessedReceipt)
    (results : BatchResults) : BExt results (validate_batch_consistency receipts results) :=
  BExt_trans (BExt_check_duplicates receipts results)
    (BExt_check_unusual_patterns receipts (check_duplicates receipts results))

/-! ### Claim C5 -/

/-- C5: for every record (and any configured minimum confidence and any
clock), the verdict of `validate_processed_receipt` has `is_valid = false`
iff at least one error message was appended during validation, and
`add_warning` never changes the validity flag. -/
theorem c5_validity_iff_errors :
    ∀ (min_conf : ℚ) (now : Int) (p : ProcessedReceipt),
      ((validate_processed_receipt min_conf now p).is_valid = false ↔
        (validate_processed_receipt min_conf now p).errors ≠ []) ∧
      (∀ (r : ValidationResult) (m : String), (r.add_warning m).is_valid = r.is_valid) := by
  intro min_conf now p
  obtain ⟨⟨es, he, hv⟩, -, -⟩ := stepOk_validate_processed_receipt min_conf now p
  constructor
  · rw [he, hv]
    show (true && es.isEmpty) = false ↔ ¬ (([] : List String) ++ es = [])
    cases es <;> simp
  · intro r m
    rfl

/-! ### Claim C6 -/

/-- C6 counterexample: a verdict can carry a warning while its
confidence score is still exactly 1.0 — the "Date is more than one year
old" warning is appended without any confidence reduction, refuting
"every appended warning reduces it". -/
theorem c6_counterexample :
    (validate_processed_receipt (4/5) sample_now
      (mkProcessedReceiptD staples_receipt "Office Supplies" (9/10))).warnings =
      ["Date is more than one year old"] ∧
    (validate_processed_receipt (4/5) sample_now
      (mkProcessedReceiptD staples_receipt "Office Supplies" (9/10))).confidence_score = 1 := by
  with_unfolding_all decide

/-- C6 (amended): the verdict's confidence score starts at 1.0 and is
monotonically non-increasing across every validation check, with floor
0.0; but appending a warning by itself never changes the confidence —
only the explicit `reduce_confidence` calls attached to some (not all)
warnings do. -/
theorem c6_confidence_monotone :
    ∀ (min_conf : ℚ) (now : Int) (p : ProcessedReceipt),
      ValidationResult.init.confidence_score = 1 ∧
      (validate_processed_receipt min_conf now p).confidence_score ≤ 1 ∧
      0 ≤ (validate_processed_receipt min_conf now p).confidence_score ∧
      (∀ c ∈ validation_checks min_conf now p, ∀ r : ValidationResult,
        0 ≤ r.confidence_score → (c r).confidence_score ≤ r.confidence_score ∧
          0 ≤ (c r).confidence_score) ∧
      (∀ (r : ValidationResult) (m : String),
        (r.add_warning m).confidence_score = r.confidence_score) := by
  intro min_conf now p
  obtain ⟨-, -, hc⟩ := stepOk_validate_processed_receipt min_conf now p
  have hinit : ValidationResult.init.confidence_score = 1 := rfl
  obtain ⟨hle, hnn⟩ := hc (by rw [hinit]; norm_num)
  refine ⟨hinit, by rw [hinit] at hle; exact hle, hnn, ?_, fun r m => rfl⟩
  intro c hcmem r hr
  exact (stepOk_validation_checks min_conf now p c hcmem r).2.2 hr

/-- C6 witness: the monotonicity theorem applied at the Staples sample;
the final confidence is within bounds and the vendor check does not
increase the initial confidence. -/
theorem c6_witness :
    (validate_processed_receipt (4/5) sample_now
      (mkProcessedReceiptD staples_receipt "Office Supplies" (9/20))).confidence_score ≤ 1 ∧
    (validate_vendor (mkProcessedReceiptD staples_receipt "Office Supplies" (9/20))
      ValidationResult.init).confidence_score ≤ ValidationResult.init.confidence_score := by
  have h := c6_confidence_monotone (4/5) sample_now
    (mkProcessedReceiptD staples_receipt "Office Supplies" (9/20))
  refine ⟨h.2.1, ?_⟩
  exact (h.2.2.2.1 _ (List.mem_cons_self _ _) ValidationResult.init
    (by norm_num [ValidationResult.init])).1

/-! ### Claim C8 -/

/-- C8: batch consistency checking (duplicate detection followed by
outlier detection) only appends to the warning lists of the
already-produced verdicts: keys, error lists, validity flags and
confidence scores are preserved pointwise. -/
theorem c8_batch_frame :
    ∀ (receipts : List ProcessedReceipt) (results : BatchResults),
      List.Forall₂ (fun e e' : String × ValidationResult =>
        e'.1 = e.1 ∧ e'.2.errors = e.2.errors ∧ e'.2.is_valid = e.2.is_valid ∧
        e'.2.confidence_score = e.2.confidence_score ∧
        ∃ ws, e'.2.warnings = e.2.warnings ++ ws)
        results (validate_batch_consistency receipts results) :=
  fun receipts results => BExt_validate_batch_consistency receipts results

/-! ### Claim C1 -/

/-- C1 counterexample: for the Staples record, categorization does
return "Office Supplies", but under the spec's pipeline (the processed
record carries the categorizer's own score, here 0.45) validation yields
validity FALSE with one error — the very-low-confidence error — not
validity true with zero errors. -/
theorem c1_counterexample :
    (process_record (4/5) sample_now staples_receipt).1 = "Office Supplies" ∧
    (process_record (4/5) sample_now staples_receipt).2.1 = 9/20 ∧
    (process_record (4/5) sample_now staples_receipt).2.2.is_valid = false ∧
    (process_record (4/5) sample_now staples_receipt).2.2.errors =
      ["Very low confidence - manual review required"] := by
  with_unfolding_all decide

/-- C1 (amended): for the Staples record, categorization returns
"Office Supplies" and every field-level check passes; but the
categorizer's score for the record is 0.45, which trips the
very-low-confidence error, so the verdict of a processed record carrying
that score is invalid with exactly that one error.  A processed record
carrying the sample's upstream extraction confidence 0.95 instead
validates with validity true and zero errors. -/
theorem c1_staples_scenario :
    categorize_expense staples_receipt = "Office Supplies" ∧
    get_category_confidence staples_receipt "Office Supplies" = 9/20 ∧
    (validate_processed_receipt (4/5) sample_now
      (mkProcessedReceiptD staples_receipt "Office Supplies" (9/20))).errors =
      ["Very low confidence - manual review required"] ∧
    (validate_processed_receipt (4/5) sample_now
      (mkProcessedReceiptD staples_receipt "Office Supplies" (19/20))).is_valid = true ∧
    (validate_processed_receipt (4/5) sample_now
      (mkProcessedReceiptD staples_receipt "Office Supplies" (19/20))).errors = [] := by
  with_unfolding_all decide

/-! ### Claim C2 -/

/-- C2 counterexample: the `Receipt` constructor replaces the amount
-5.00 by its absolute value 5.00, so validation of the Acme record
reports NO amount-positivity error (the verdict is invalid, but only
because the record's default confidence 0.0 trips the
very-low-confidence error). -/
theorem c2_counterexample :
    acme_receipt.amount = some 5 ∧
    (validate_processed_receipt (4/5) sample_now
      (mkProcessedReceiptD acme_receipt "Office Supplies" 0)).is_valid = false ∧
    "Amount must be positive" ∉
      (validate_processed_receipt (4/5) sample_now
        (mkProcessedReceiptD acme_receipt "Office Supplies" 0)).errors := by
  with_unfolding_all decide

/-- C2 (amended): for the Acme record constructed with amount -5.00 and
category "Office Supplies", the constructor normalizes the amount to
5.00; validation then yields validity false with exactly one error, the
very-low-confidence error for the default zero confidence — and no
amount-positivity error. -/
theorem c2_acme_scenario :
    acme_receipt.amount = some 5 ∧
    (validate_processed_receipt (4/5) sample_now
      (mkProcessedReceiptD acme_receipt "Office Supplies" 0)).errors =
      ["Very low confidence - manual review required"] ∧
    (validate_processed_receipt (4/5) sample_now
      (mkProcessedReceiptD acme_receipt "Office Supplies" 0)).is_valid = false := by
  with_unfolding_all decide

/-! ### Claim C3 -/

theorem castMapSum_nonneg {α : Type} (f : α → ℕ) (l : List α) :
    (0 : ℚ) ≤ (l.map (fun a => ((f a : ℕ) : ℚ))).sum := by
  refine List.sum_nonneg ?_
  intro x hx
  rcases List.mem_map.1 hx with ⟨a, -, rfl⟩
  positivity

theorem get_vendor_confidence_bounds (v category : String) :
    0 ≤ get_vendor_confidence v category ∧ get_vendor_confidence v category ≤ 1 := by
  unfold get_vendor_confidence
  dsimp only
  split_ifs <;> norm_num

theorem get_items_confidence_bounds (items : List String) (category : String) :
    0 ≤ get_items_confidence items category ∧ get_items_confidence items category ≤ 1 := by
  unfold get_items_confidence
  dsimp only
  split_ifs <;> norm_num
  all_goals exact div_nonneg (castMapSum_nonneg _ _) (by positivity)

set_option maxHeartbeats 1000000 in
theorem get_text_confidence_bounds (r : Receipt) (category : String) :
    0 ≤ get_text_confidence r category ∧ get_text_confidence r category ≤ 1 := by
  unfold get_text_confidence
  dsimp only
  split_ifs <;> norm_num
  all_goals
    first
      | exact castMapSum_nonneg _ _
      | exact add_nonneg (castMapSum_nonneg _ _) (castMapSum_nonneg _ _)

/-- C3 counterexample: for a record with no vendor, no items and empty
recognized text, no signal applies, yet the score is 0.0 — not the
claimed neutral 0.5 — because the text-confidence component is appended
to the factor list unconditionally, so the list is never empty and the
0.5 branch is unreachable. -/
theorem c3_counterexample :
    confidence_factors empty_receipt "Office Supplies" =
      [get_text_confidence empty_receipt "Office Supplies"] ∧
    get_category_confidence empty_receipt "Office Supplies" = 0 ∧
    get_category_confidence empty_receipt "Office Supplies" ≠ 1/2 := by
  with_unfolding_all decide

/-- C3 (amended): the score is the arithmetic mean of the vendor
component (only when a vendor is present), the items component (only
when items are present) and the text component (always included, even
when no vendor and no recognized text exist, in which case it is 0.0
rather than omitted); the factor list is therefore never empty, so the
0.5 default is never returned; the result always lies in [0, 1]. -/
theorem c3_score_mean :
    ∀ (r : Receipt) (category : String),
      0 ≤ get_category_confidence r category ∧
      get_category_confidence r category ≤ 1 ∧
      (strTruthy r.vendor = true → r.items ≠ [] →
        get_category_confidence r category =
          (get_vendor_confidence (r.vendor.getD "") category +
           get_items_confidence r.items category +
           get_text_confidence r category) / 3) ∧
      (strTruthy r.vendor = true → r.items = [] →
        get_category_confidence r category =
          (get_vendor_confidence (r.vendor.getD "") category +
           get_text_confidence r category) / 2) ∧
      (strTruthy r.vendor = false → r.items ≠ [] →
        get_category_confidence r category =
          (get_items_confidence r.items category +
           get_text_confidence r category) / 2) ∧
      (strTruthy r.vendor = false → r.items = [] →
        get_category_confidence r category = get_text_confidence r category) := by
  intro r category
  obtain ⟨hv0, hv1⟩ := get_vendor_confidence_bounds (r.vendor.getD "") category
  obtain ⟨hi0, hi1⟩ := get_items_confidence_bounds r.items category
  obtain ⟨ht0, ht1⟩ := get_text_confidence_bounds r category
  rcases hbv : strTruthy r.vendor <;> rcases hbi : r.items with _ | ⟨i, is⟩ <;>
    simp only [get_category_confidence, confidence_factors, hbv, hbi, if_true, if_false,
      Bool.false_eq_true, ite_false, ite_true, ne_eq, not_false_iff, not_true,
      List.cons_ne_self, List.nil_append, List.cons_append, List.append_nil,
      List.sum_cons, List.sum_nil, List.length_cons, List.length_nil] <;>
    norm_num <;>
    constructor <;> try constructor
  all_goals try intro h
  all_goals try linarith
  all_goals try simp_all
  all_goals linarith

/-- C3 witness: the mean theorem applied to the Staples record, which
has a vendor and no items: the score is the two-component mean of the
vendor and text confidences, and is nonnegative. -/
theorem c3_witness :
    get_category_confidence staples_receipt "Office Supplies" =
      (get_vendor_confidence (staples_receipt.vendor.getD "") "Office Supplies" +
       get_text_confidence staples_receipt "Office Supplies") / 2 ∧
    0 ≤ get_category_confidence staples_receipt "Office Supplies" := by
  have h := c3_score_mean staples_receipt "Office Supplies"
  exact ⟨h.2.2.2.1 (by with_unfolding_all decide) (by with_unfolding_all decide), h.1⟩

/-! ### Claim C4 -/

theorem dictLookup_mem {l : List (String × String)} {k v : String}
    (h : dictLookup k l = some v) : (k, v) ∈ l := by
  induction l with
  | nil => simp [dictLookup] at h
  | cons e t ih =>
    obtain ⟨k1, v1⟩ := e
    rw [dictLookup] at h
    by_cases he : k1 = k
    · rw [if_pos he] at h
      obtain rfl : v1 = v := Option.some.inj h
      rw [← he]
      exact List.mem_cons_self _ _
    · rw [if_neg he] at h
      exact List.mem_cons_of_mem _ (ih h)

/-- Every entry of the vendor mapping points to a category whose own
configured vendor list (lower-cased) contains the entry's key. -/
theorem vendor_mappings_sound :
    ∀ p ∈ vendor_mappings, p.1 ∈ (categoryVendors p.2).map pyLower ∧ p.1 ≠ "" := by
  decide

/-- C4 counterexample: "staples" (the lower-cased vendor of the Staples
record) is a configured known vendor of "Office Supplies", and
categorization does return "Office Supplies", but the record's score
against that category is 0.45 < 0.9: only the vendor-confidence
component is 0.9; the overall score averages in the text confidence. -/
theorem c4_counterexample :
    pyLower (staples_receipt.vendor.getD "") ∈ (categoryVendors "Office Supplies").map pyLower ∧
    categorize_expense staples_receipt = "Office Supplies" ∧
    get_category_confidence staples_receipt "Office Supplies" = 9/20 ∧
    ¬ (9/20 : ℚ) ≥ 9/10 := by
  with_unfolding_all decide

/-- C4 (amended): if the record's lower-cased vendor is a key of the
vendor mapping (i.e. it exactly equals a configured known vendor),
categorization returns the mapped category — for a vendor listed under
several categories the store's later category wins — and the
vendor-confidence component against that category is exactly 0.9; the
overall score, however, may be below 0.9. -/
theorem c4_exact_vendor_match :
    ∀ (r : Receipt) (v category : String),
      r.vendor = some v →
      dictLookup (pyLower v) vendor_mappings = some category →
      categorize_expense r = category ∧
      get_vendor_confidence v category = 9/10 := by
  intro r v category hr h
  have hmem := dictLookup_mem h
  have hsound := vendor_mappings_sound _ hmem
  dsimp only at hsound
  obtain ⟨hvend, hkey⟩ := hsound
  have hvne : v ≠ "" := by
    intro he
    subst he
    exact hkey rfl
  constructor
  · have ht : strTruthy (some v) = true := by
      simp [strTruthy, hvne]
    have hbv : categorize_by_vendor v = some category := by
      unfold categorize_by_vendor
      dsimp only
      rw [h]
    unfold categorize_expense categorize_expense_body
    simp only [hr, Option.getD_some, ht, if_true, hbv]
  · unfold get_vendor_confidence
    rw [if_neg hvne]
    dsimp only
    rw [if_pos hvend]

/-- C4 witness: the amended theorem applied to the Staples record,
whose lower-cased vendor is the mapping key "staples". -/
theorem c4_witness :
    staples_receipt.vendor = some "Staples" ∧
    dictLookup (pyLower "Staples") vendor_mappings = some "Office Supplies" ∧
    categorize_expense staples_receipt = "Office Supplies" ∧
    get_vendor_confidence "Staples" "Office Supplies" = 9/10 := by
  have h := c4_exact_vendor_match staples_receipt "Staples" "Office Supplies"
    (by with_unfolding_all decide) (by decide)
  exact ⟨by with_unfolding_all decide, by decide, h.1, h.2⟩

/-! ### Claim C7 -/

theorem firstArgmax_mem {l : List (String × ℚ)} {p : String × ℚ}
    (h : firstArgmax l = some p) : p ∈ l := by
  induction l with
  | nil => simp [firstArgmax] at h
  | cons q t ih =>
    rw [firstArgmax] at h
    cases hq : firstArgmax t with
    | none =>
      rw [hq] at h
      dsimp only at h
      obtain rfl := Option.some.inj h
      exact List.mem_cons_self _ _
    | some m =>
      rw [hq] at h
      dsimp only at h
      by_cases hgt : m.2 > q.2
      · rw [if_pos hgt] at h
        obtain rfl := Option.some.inj h
        exact List.mem_cons_of_mem _ (ih hq)
      · rw [if_neg hgt] at h
        obtain rfl := Option.some.inj h
        exact List.mem_cons_self _ _

theorem vendor_mappings_values :
    ∀ p ∈ vendor_mappings, p.2 ∈ possible_categories := by
  decide

theorem categorize_by_vendor_mem {v c : String}
    (h : categorize_by_vendor v = some c) : c ∈ possible_categories := by
  unfold categorize_by_vendor at h
  dsimp only at h
  cases hd : dictLookup (pyLower v) vendor_mappings with
  | some cat =>
    rw [hd] at h
    obtain rfl := Option.some.inj h
    exact vendor_mappings_values _ (dictLookup_mem hd)
  | none =>
    rw [hd] at h
    cases hf : vendor_mappings.find? (fun p =>
        pyContains (pyLower v) p.1 || pyContains p.1 (pyLower v)) with
    | none => rw [hf] at h; simp at h
    | some p =>
      rw [hf] at h
      obtain rfl : p.2 = c := Option.some.inj h
      exact vendor_mappings_values _ (List.mem_of_find?_eq_some hf)

theorem categorize_by_items_mem {items : List String} {c : String}
    (h : categorize_by_items items = some c) : c ∈ possible_categories := by
  unfold categorize_by_items at h
  dsimp only at h
  cases hf : firstArgmax (default_categories.filterMap (fun cd =>
      let score := (cd.keywords.map
        (fun kw => countKeyword kw (pyLower (String.intercalate " " items)))).sum
      if score > 0 then some (cd.name, (score : ℚ)) else none)) with
  | none => rw [hf] at h; simp at h
  | some p =>
    rw [hf] at h
    simp only [Option.map_some'] at h
    obtain rfl : p.1 = c := Option.some.inj h
    have hp := firstArgmax_mem hf
    rcases List.mem_filterMap.1 hp with ⟨cd, hcd, heq⟩
    dsimp only at heq
    split_ifs at heq
    obtain rfl := Option.some.inj heq
    dsimp only
    have hname : cd.name ∈ default_categories.map (fun c => c.name) :=
      List.mem_map_of_mem _ hcd
    exact List.mem_cons_of_mem _ (List.mem_cons_of_mem _ hname)

theorem categorize_by_text_analysis_mem {r : Receipt} {c : String}
    (h : categorize_by_text_analysis r = some c) : c ∈ possible_categories := by
  unfold categorize_by_text_analysis at h
  by_cases hs : pyStrip (text_combined r) = ""
  · rw [if_pos hs] at h
    cases h
  · rw [if_neg hs] at h
    cases hf : firstArgmax (text_scores r) with
    | none => rw [hf] at h; cases h
    | some best =>
      rw [hf] at h
      dsimp only at h
      by_cases hb : best.2 > 1/10
      · rw [if_pos hb] at h
        obtain rfl : best.1 = c := Option.some.inj h
        have hb2 := firstArgmax_mem hf
        rcases List.mem_map.1 hb2 with ⟨cd, hcd, heq⟩
        have hname : best.1 = cd.name := by rw [← heq]
        rw [hname]
        have hm : cd.name ∈ default_categories.map (fun cc => cc.name) :=
          List.mem_map_of_mem _ hcd
        exact List.mem_cons_of_mem _ (List.mem_cons_of_mem _ hm)
      · rw [if_neg hb] at h
        cases h

theorem categorize_by_amount_mem {a : Option ℚ} {c : String}
    (h : categorize_by_amount a = some c) : c ∈ possible_categories := by
  unfold categorize_by_amount at h
  dsimp only at h
  split_ifs at h
  all_goals
    obtain rfl := Option.some.inj h
    decide

/-- C7: categorization is total over the whole (typed) record space —
every record, however degenerate, is mapped to a defined result, which
is a category of the store, the default "Miscellaneous", or the
exception fallback "Uncategorized" (the `except` branch of
`categorize_expense`, modelled by the `Except.error` case). -/
theorem c7_categorize_total :
    ∀ r : Receipt, categorize_expense r ∈ possible_categories := by
  intro r
  unfold categorize_expense categorize_expense_body
  cases h1 : (if strTruthy r.vendor then categorize_by_vendor (r.vendor.getD "") else none) with
  | some c =>
    dsimp only
    by_cases ht : strTruthy r.vendor
    · rw [if_pos ht] at h1
      exact categorize_by_vendor_mem h1
    · rw [if_neg ht] at h1
      cases h1
  | none =>
    dsimp only
    cases h2 : (if r.items ≠ [] then categorize_by_items r.items else none) with
    | some c =>
      dsimp only
      by_cases hi : r.items ≠ []
      · rw [if_pos hi] at h2
        exact categorize_by_items_mem h2
      · rw [if_neg hi] at h2
        cases h2
    | none =>
      dsimp only
      cases h3 : categorize_by_text_analysis r with
      | some c =>
        dsimp only
        exact categorize_by_text_analysis_mem h3
      | none =>
        dsimp only
        cases h4 : categorize_by_amount r.amount with
        | some c =>
          dsimp only
          exact categorize_by_amount_mem h4
        | none =>
          dsimp only
          decide

/-! ### Claim C9 -/

theorem BExt_get? {a b : BatchResults} (h : BExt a b) :
    ∀ (i : Nat) (e : String × ValidationResult), a.get? i = some e →
      ∃ e', b.get? i = some e' ∧ WExt e e' := by
  induction h with
  | nil => intro i e he; simp at he
  | cons hw ht ih =>
    intro i e he
    cases i with
    | zero =>
      obtain rfl := Option.some.inj he
      exact ⟨_, rfl, hw⟩
    | succ n => exact ih n e he

theorem addWarningTo_get? {res : BatchResults} {i : Nat} {e : String × ValidationResult}
    (he : res.get? i = some e) (id message : String) (hk : e.1 = id) :
    (addWarningTo res id message).get? i = some (e.1, e.2.add_warning message) := by
  unfold addWarningTo
  rw [List.get?_eq_getElem?] at he ⊢
  rw [List.getElem?_map, he]
  simp [hk]

theorem mem_truthyAmounts {receipts : List ProcessedReceipt} {r : ProcessedReceipt} {a : ℚ}
    (hr : r ∈ receipts) (ha : r.receipt.amount = some a) (hnz : a ≠ 0) :
    a ∈ truthyAmounts receipts := by
  refine List.mem_filterMap.2 ⟨r, hr, ?_⟩
  simp [ProcessedReceipt.amount, ha, hnz]

theorem unusual_fold_mem (avg : ℚ) (l1 l2 : List ProcessedReceipt) (r : ProcessedReceipt)
    (res : BatchResults)
    (hcond : numTruthy r.amount = true ∧ r.amount.getD 0 > avg * 5)
    (i : Nat) (e0 : String × ValidationResult)
    (hres : res.get? i = some e0) (hk : e0.1 = r.receipt.id) :
    ∃ e, ((l1 ++ r :: l2).foldl (unusual_step avg) res).get? i = some e ∧
      "Amount significantly higher than batch average" ∈ e.2.warnings := by
  rw [List.foldl_append, List.foldl_cons]
  have hext1 : BExt res (l1.foldl (unusual_step avg) res) :=
    BExt_foldl _ (fun a b => BExt_unusual_step avg a b) l1 res
  obtain ⟨e1, he1, hw1⟩ := BExt_get? hext1 i e0 hres
  have hk1 : e1.1 = r.receipt.id := by rw [hw1.1, hk]
  have hstep : unusual_step avg (l1.foldl (unusual_step avg) res) r =
      addWarningTo (l1.foldl (unusual_step avg) res) r.receipt.id
        "Amount significantly higher than batch average" := by
    unfold unusual_step
    rw [if_pos hcond]
  rw [hstep]
  have he2 := addWarningTo_get? he1 r.receipt.id
    "Amount significantly higher than batch average" hk1
  have hext2 : BExt (addWarningTo (l1.foldl (unusual_step avg) res) r.receipt.id
      "Amount significantly higher than batch average")
      (l2.foldl (unusual_step avg) (addWarningTo (l1.foldl (unusual_step avg) res)
        r.receipt.id "Amount significantly higher than batch average")) :=
    BExt_foldl _ (fun a b => BExt_unusual_step avg a b) l2 _
  obtain ⟨e3, he3, hw3⟩ := BExt_get? hext2 i _ he2
  refine ⟨e3, he3, ?_⟩
  obtain ⟨-, -, -, -, ws, hw⟩ := hw3
  rw [hw]
  refine List.mem_append_left _ ?_
  simp [ValidationResult.add_warning]

/-- C9 counterexample: in a batch of six records with known amounts
[0, 100, 1, 1, 1, 1] there are six (≥ 5) records with a known amount and
100 exceeds five times their mean (520/6), so the claim requires an
outlier warning on the 100-record; but the code leaves every verdict
untouched — the skip test counts records (not known amounts) and the
Python-truthy filter drops the 0 amount from the mean, giving the
threshold 104 > 100. -/
theorem c9_counterexample :
    (c9_batch.filter (fun r => r.receipt.amount.isSome)).length = 6 ∧
    (100 : ℚ) * ((c9_batch.filterMap (fun r => r.receipt.amount)).length : ℚ) >
      5 * (c9_batch.filterMap (fun r => r.receipt.amount)).sum ∧
    (outlier_receipt "b" (some 100)) ∈ c9_batch ∧
    (outlier_receipt "b" (some 100)).receipt.amount = some 100 ∧
    check_unusual_patterns c9_batch c9_results = c9_results := by
  with_unfolding_all decide

/-- C9 (amended): outlier detection is skipped exactly when the batch
has fewer than 5 records (regardless of how many have a known amount);
otherwise the mean is computed over the records with a truthy (present
and nonzero) amount, and every record whose truthy amount exceeds 5
times that mean receives the "significantly higher than batch average"
warning on its verdict. -/
theorem c9_outlier_semantics :
    ∀ (receipts : List ProcessedReceipt) (results : BatchResults),
      (receipts.length < 5 → check_unusual_patterns receipts results = results) ∧
      (∀ r ∈ receipts, ∀ a : ℚ, r.receipt.amount = some a → a ≠ 0 →
        5 ≤ receipts.length →
        a * ((truthyAmounts receipts).length : ℚ) > 5 * (truthyAmounts receipts).sum →
        ∀ (i : Nat) (e0 : String × ValidationResult),
          results.get? i = some e0 → e0.1 = r.receipt.id →
          ∃ e, (check_unusual_patterns receipts results).get? i = some e ∧
            "Amount significantly higher than batch average" ∈ e.2.warnings) := by
  intro receipts results
  constructor
  · intro h
    unfold check_unusual_patterns
    rw [if_pos h]
  · intro r hr a ha hnz hlen hgt i e0 hres hk
    have hmema : a ∈ truthyAmounts receipts := mem_truthyAmounts hr ha hnz
    have hne : truthyAmounts receipts ≠ [] := List.ne_nil_of_mem hmema
    have hlenpos : 0 < ((truthyAmounts receipts).length : ℚ) := by
      exact_mod_cast List.length_pos.2 hne
    have hcond : numTruthy r.amount = true ∧
        r.amount.getD 0 >
          (truthyAmounts receipts).sum / ((truthyAmounts receipts).length : ℚ) * 5 := by
      constructor
      · simp [ProcessedReceipt.amount, numTruthy, ha, hnz]
      · have hgd : r.amount.getD 0 = a := by simp [ProcessedReceipt.amount, ha]
        rw [hgd, gt_iff_lt, div_mul_eq_mul_div, div_lt_iff₀ hlenpos]
        linarith [hgt]
    have heq : check_unusual_patterns receipts results =
        receipts.foldl (unusual_step ((truthyAmounts receipts).sum /
          ((truthyAmounts receipts).length : ℚ))) results := by
      unfold check_unusual_patterns
      rw [if_neg (by omega)]
      dsimp only
      rw [if_neg hne]
    obtain ⟨l1, l2, hsplit⟩ := List.append_of_mem hr
    rw [heq, hsplit]
    exact unusual_fold_mem _ l1 l2 r results (by rw [← hsplit]; exact hcond) i e0 hres hk

/-- C9 witness: the amended theorem applied to the all-truthy batch
[100, 1, 1, 1, 1, 1], whose 100-record does exceed five times the mean
17.5 and receives the outlier warning. -/
theorem c9_witness :
    "Amount significantly higher than batch average" ∈
      (((check_unusual_patterns c9_witness_batch c9_witness_results).get? 0).getD
        ("", ValidationResult.init)).2.warnings := by
  obtain ⟨e, he, hm⟩ := (c9_outlier_semantics c9_witness_batch c9_witness_results).2
    (outlier_receipt "a" (some 100)) (by with_unfolding_all decide) 100
    (by with_unfolding_all decide) (by norm_num) (by decide)
    (by with_unfolding_all decide) 0 (("a", ValidationResult.init))
    (by with_unfolding_all decide) (by decide)
  rw [he]
  exact hm

/-! ### Claim C10 -/

/-- C10: immediately after construction of a processed receipt, a
confidence score below 0.7 forces the requires-review flag, and a
present amount above 1000 forces the flag and appends the high-amount
note to the notes. -/
theorem c10_review_invariants :
    ∀ (receipt : Receipt) (category : String) (confidence_score : ℚ)
      (description status : String) (requires_review : Bool) (notes : String),
      (confidence_score < 7/10 →
        (mkProcessedReceipt receipt category confidence_score description status
          requires_review notes).requires_review = true) ∧
      (∀ a : ℚ, receipt.amount = some a → 1000 < a →
        (mkProcessedReceipt receipt category confidence_score description status
          requires_review notes).requires_review = true ∧
        (mkProcessedReceipt receipt category confidence_score description status
          requires_review notes).notes =
          notes ++ "High amount expense - requires approval. ") := by
  intro receipt category confidence_score description status requires_review notes
  constructor
  · intro hconf
    unfold mkProcessedReceipt
    dsimp only
    split_ifs <;> simp_all
  · intro a ha hgt
    have hhigh : numTruthy receipt.amount = true ∧ receipt.amount.getD 0 > 1000 := by
      constructor
      · simp only [numTruthy, ha]
        simp only [decide_eq_true_eq]
        intro h0
        rw [h0] at hgt
        norm_num at hgt
      · simp only [ha, Option.getD_some]
        exact hgt
    unfold mkProcessedReceipt
    dsimp only
    constructor
    · rw [if_pos hhigh]
    · rw [if_pos hhigh]

set_option maxRecDepth 4000 in
/-- C10 witness: the invariants applied to a receipt with amount 2000
and confidence 0.5: review is forced both ways and the note is
appended. -/
theorem c10_witness :
    (1/2 : ℚ) < 7/10 ∧
    (mkReceipt "w" (some "V") (some 2000) none [] "").amount = some 2000 ∧
    (mkProcessedReceipt (mkReceipt "w" (some "V") (some 2000) none [] "")
      "Travel" (1/2) "" "processed" false "").requires_review = true ∧
    (mkProcessedReceipt (mkReceipt "w" (some "V") (some 2000) none [] "")
      "Travel" (1/2) "" "processed" false "").notes =
      "" ++ "High amount expense - requires approval. " := by
  have h := c10_review_invariants (mkReceipt "w" (some "V") (some 2000) none [] "")
    "Travel" (1/2) "" "processed" false ""
  have ha : (mkReceipt "w" (some "V") (some 2000) none [] "").amount = some 2000 := by
    with_unfolding_all decide
  have h2 := h.2 2000 ha (by norm_num)
  exact ⟨by norm_num, ha, h2.1, h2.2⟩

end SRP
